import Mathlib

/-
Verification of the FF_A6lib asynchronous SMS modem driver (FF_A6lib.cpp /
FF_A6lib.h) against its natural-language specification.

The embedding below models the engine state (the private members of class
FF_A6lib), the character/line processing and timeout handling of doLoop, the
command issuing path (sendCommand, deleteSMS), the incoming-message pipeline
(readSmsHeader, readSmsMessage) and the outgoing pipeline (sendSMS,
sendOneSmsChunk, sendNextSmsChunk, getGsm7EquivalentLen, ucs2MessageLength).

Modelling conventions:
- C byte strings are `List Nat` of byte values (a C string cannot contain the
  NUL byte, so the list is exactly the string's content).
- Machine integers keep their wrap-around behaviour explicitly:
  `unsigned int` counters and millis() arithmetic are mod 4294967296,
  `uint16_t` quantities mod 65536, `uint8_t` quantities mod 256.
- The external collaborators declared out of scope by the spec (serial
  transport, PDU codec, wall clock, host callbacks) are parameters: the codec's
  encodePDU / decodePDU are function arguments, the clock is a `now` argument,
  transport writes and callback invocations are recorded as events.
- Member-function-pointer continuations (nextStepCb) are modelled as a
  presence flag plus an explicit `contInvoked` event: the engine code under
  verification only tests the pointer and jumps through it.
-/

/-- One observable action of the engine: transport writes, callback
invocations, and opaque continuation jumps. -/
inductive A6Event where
  | contInvoked : A6Event
  | lineCb (line : List Nat) : A6Event
  | smsCb (sender date msg : List Nat) : A6Event
  | cmdIssued (cmd : List Nat) : A6Event
  | chunkToCodec (number text : List Nat) (msgId msgCount msgIndex : Nat) : A6Event
deriving DecidableEq, Repr

/-- Bytes of an ASCII string literal. -/
def bytesOf (s : String) : List Nat := s.toList.map Char.toNat

/-- Whether `pre` is an initial segment of `l` (helper for the strstr model). -/
def listStartsWith : List Nat → List Nat → Bool
  | _, [] => true
  | [], _ :: _ => false
  | a :: as, b :: bs => a == b && listStartsWith as bs

/-- Model of C strstr truthiness: `needle` occurs contiguously in `hay`. -/
def hasSub : List Nat → List Nat → Bool
  | [], needle => listStartsWith [] needle
  | a :: rest, needle => listStartsWith (a :: rest) needle || hasSub rest needle

/-- Model of Arduino String::substring(l, r): characters in positions [l, r),
clamped to the string length (all call sites have l ≤ r). -/
def substringB (s : List Nat) (l r : Nat) : List Nat := (s.take r).drop l

/-- Decimal digits of n as ASCII bytes (model of snprintf %d for n ≥ 0). -/
def decimalBytes (n : Nat) : List Nat := (Nat.toDigits 10 n).map Char.toNat

/-- Unsigned 32-bit subtraction, as in `millis() - startTime`. -/
def wsub32 (a b : Nat) : Nat := (a + (4294967296 - b % 4294967296)) % 4294967296

/-- A6_CMD_TIMEOUT from FF_A6lib.h. -/
def A6_CMD_TIMEOUT : Nat := 4000
/-- MAX_ANSWER from FF_A6lib.h: capacity of the lastAnswer buffer. -/
def MAX_ANSWER : Nat := 500
/-- DEFAULT_ANSWER "OK" from FF_A6lib.h. -/
def DEFAULT_ANSWER : List Nat := bytesOf ("OK")
/-- SMS_READY_MSG "SMS Ready" from FF_A6lib.h. -/
def SMS_READY_MSG : List Nat := bytesOf ("SMS Ready")
/-- SMS_INDICATOR "+CMT: " from FF_A6lib.h. -/
def SMS_INDICATOR : List Nat := bytesOf ("+CMT: ")
/-- The "+CMS ERROR" substring tested in doLoop. -/
def CMS_ERROR_MSG : List Nat := bytesOf ("+CMS ERROR")
/-- The "+CME ERROR" substring tested in doLoop. -/
def CME_ERROR_MSG : List Nat := bytesOf ("+CME ERROR")

/-- Status codes from FF_A6lib.h. -/
def A6_OK : Nat := 0
/-- A6_RUNNING status code. -/
def A6_RUNNING : Nat := 1
/-- A6_TIMEOUT status code (same numeric value as A6_RUNNING in the header). -/
def A6_TIMEOUT : Nat := 1
/-- A6_TOO_LONG status code. -/
def A6_TOO_LONG : Nat := 2
/-- A6_BAD_ANSWER status code. -/
def A6_BAD_ANSWER : Nat := 3
/-- A6_CM_ERROR status code. -/
def A6_CM_ERROR : Nat := 4
/-- A6_NEED_INIT status code. -/
def A6_NEED_INIT : Nat := 5

/-- Activity codes from FF_A6lib.h. -/
def A6_IDLE : Nat := 0
/-- A6_SEND activity code. -/
def A6_SEND : Nat := 1
/-- A6_RECV activity code. -/
def A6_RECV : Nat := 2
/-- A6_STARTING activity code. -/
def A6_STARTING : Nat := 3

/-- The FF_A6lib object state: the private members of the class that the
verified routines read or write. String buffers are byte lists; the two
callback pointers and the continuation pointer are presence flags. -/
structure A6State where
  restartNeeded : Bool
  restartReason : Nat
  gsmStatus : Nat
  gsmIdle : Nat
  inReceive : Bool
  inWait : Bool
  inWaitSmsReady : Bool
  ignoreErrors : Bool
  smsReady : Bool
  nextLineIsSmsMessage : Bool
  lastAnswer : List Nat
  expectedAnswer : List Nat
  lastCommand : List Nat
  nextStepCb : Bool
  readSmsCb : Bool
  recvLineCb : Bool
  startTime : Nat
  gsmTimeout : Nat
  index : Nat
  commandCount : Nat
  resetCount : Nat
  restartCount : Nat
  smsReadCount : Nat
  smsForwardedCount : Nat
  smsSentCount : Nat
  gsm7Len : Nat
  smsMsgId : Nat
  smsMsgIndex : Nat
  smsMsgCount : Nat
  smsChunkSize : Nat
  lastReceivedNumber : List Nat
  lastReceivedDate : List Nat
  lastReceivedMessage : List Nat
  lastSentNumber : List Nat
  lastSentMessage : List Nat
deriving DecidableEq, Repr

/-- The PDU codec's decodePDU together with getSender/getTimeStamp/getText:
either the decoded (sender, timestamp, text) or a decode failure. -/
abbrev DecodeFn : Type := List Nat → Option (List Nat × List Nat × List Nat)

/-- The PDU codec's encodePDU: the PDU byte length, negative on encode error. -/
abbrev EncodeFn : Type := List Nat → List Nat → Nat → Nat → Nat → Int

/-- State after the FF_A6lib constructor (members not set by the constructor
are modelled at their quiescent values: buffers empty, flags false, ids 0). -/
def initState : A6State where
  restartNeeded := true
  restartReason := A6_NEED_INIT
  gsmStatus := A6_NEED_INIT
  gsmIdle := A6_STARTING
  inReceive := false
  inWait := false
  inWaitSmsReady := false
  ignoreErrors := false
  smsReady := false
  nextLineIsSmsMessage := false
  lastAnswer := []
  expectedAnswer := []
  lastCommand := []
  nextStepCb := false
  readSmsCb := false
  recvLineCb := false
  startTime := 0
  gsmTimeout := 0
  index := 0
  commandCount := 0
  resetCount := 0
  restartCount := 0
  smsReadCount := 0
  smsForwardedCount := 0
  smsSentCount := 0
  gsm7Len := 0
  smsMsgId := 0
  smsMsgIndex := 0
  smsMsgCount := 0
  smsChunkSize := 0
  lastReceivedNumber := bytesOf ("[none]")
  lastReceivedDate := bytesOf ("[never]")
  lastReceivedMessage := bytesOf ("[no message]")
  lastSentNumber := bytesOf ("[none]")
  lastSentMessage := bytesOf ("[no message]")

/-- FF_A6lib::setIdle: mark idle, leave answer-wait, clear the answer buffer. -/
def setIdle (st : A6State) : A6State :=
  { st with gsmIdle := A6_IDLE, inReceive := false, lastAnswer := [] }

/-- The matched-answer continuation step shared by the line-match and the
one-character-prompt paths of doLoop: set status OK, then jump through
nextStepCb if set, else setIdle. -/
def answerMatched (st : A6State) : A6State × List A6Event :=
  let st1 := { st with gsmStatus := A6_OK }
  if st1.nextStepCb = true then (st1, [A6Event.contInvoked]) else (setIdle st1, [])

/-- FF_A6lib::sendCommand (char* overload): record expected answer, timeout and
continuation, write the command and CR if the command is nonempty, enter the
awaiting-answer state. `now` is millis() at issue time. -/
def sendCommand (st : A6State) (command : List Nat) (hasNextStep : Bool)
    (resp : List Nat) (cdeTimeout : Nat) (now : Nat) : A6State × List A6Event :=
  let st1 := { st with
    commandCount := (st.commandCount + 1) % 4294967296,
    gsmTimeout := cdeTimeout,
    gsmStatus := A6_RUNNING,
    nextStepCb := hasNextStep,
    expectedAnswer := resp }
  let p :=
    if command ≠ [] then
      (({ st1 with lastCommand := command.take 30, lastAnswer := [] } : A6State),
        [A6Event.cmdIssued command])
    else (st1, [])
  ({ p.1 with
      startTime := now, inReceive := true, inWait := false,
      inWaitSmsReady := false, nextLineIsSmsMessage := false }, p.2)

/-- FF_A6lib::deleteSMS: issue AT+CMGD=index,flag with the setIdle
continuation, default answer, 10 s timeout. -/
def deleteSMS (st : A6State) (idx flag : Nat) (now : Nat) : A6State × List A6Event :=
  sendCommand st (bytesOf ("AT+CMGD=") ++ decimalBytes idx ++ [44] ++ decimalBytes flag)
    true DEFAULT_ANSWER 10000 now

/-- FF_A6lib::readSmsHeader: reset the message index and, when the line does
contain the SMS indicator, arm the next-line-is-SMS-message flag. -/
def readSmsHeader (st : A6State) (msg : List Nat) : A6State :=
  let st1 := { st with index := 0 }
  if hasSub msg SMS_INDICATOR = true then
    { st1 with nextLineIsSmsMessage := true }
  else st1

/-- FF_A6lib::readSmsMessage: decode the PDU line; on success store
sender/timestamp/text, bump the forwarded counter and fire the receive
callback; either way issue deleteSMS(1,2). -/
def readSmsMessage (decode : DecodeFn) (st : A6State) (msg : List Nat)
    (now : Nat) : A6State × List A6Event :=
  match decode msg with
  | some (sender, date, text) =>
    let st1 := { st with
      lastReceivedNumber := sender,
      lastReceivedDate := date,
      lastReceivedMessage := text,
      smsForwardedCount := (st.smsForwardedCount + 1) % 4294967296 }
    let ev := if st1.readSmsCb = true then [A6Event.smsCb sender date text] else []
    let p := deleteSMS st1 1 2 now
    (p.1, ev ++ p.2)
  | none => deleteSMS st 1 2 now

/-- FF_A6lib::answerMatches condition of doLoop line 134-135: exact comparison
when the expected answer is the generic DEFAULT_ANSWER, substring containment
otherwise. -/
def answerMatches (expected line : List Nat) : Bool :=
  if expected = DEFAULT_ANSWER then line == expected else hasSub line expected

/-- The line-feed branch of FF_A6lib::doLoop (lines 126-182), acting on the
line accumulated in lastAnswer: opportunistic SMS-Ready capture, expected
answer matching, CMS/CME error detection, SMS reception (PDU line or
indicator line) and the raw-line callback for everything else. -/
def doLoopLine (decode : DecodeFn) (st : A6State) (now : Nat) : A6State × List A6Event :=
  let line := st.lastAnswer
  if st.smsReady = false ∧ hasSub line SMS_READY_MSG = true then
    ({ st with smsReady := true }, [])
  else if st.inReceive = true ∧ answerMatches st.expectedAnswer line = true then
    answerMatched st
  else if st.inReceive = true ∧ st.ignoreErrors = false ∧
      (hasSub line CMS_ERROR_MSG = true ∨ hasSub line CME_ERROR_MSG = true) then
    (setIdle { st with
        gsmStatus := A6_CM_ERROR, restartNeeded := true,
        restartReason := A6_CM_ERROR }, [])
  else if line ≠ [] then
    if st.nextLineIsSmsMessage = true then
      let p := readSmsMessage decode st line now
      ({ p.1 with lastAnswer := [], nextLineIsSmsMessage := false }, p.2)
    else if hasSub line SMS_INDICATOR = true then
      ({ (readSmsHeader st line) with
          lastCommand := line.take 30,
          lastAnswer := [], inReceive := true, startTime := now }, [])
    else
      (({ st with lastAnswer := [] } : A6State),
        if st.recvLineCb = true then [A6Event.lineCb line] else [])
  else (st, [])

/-- One received character of FF_A6lib::doLoop's read loop (lines 111-210):
NUL and CR are discarded, a full buffer reports A6_TOO_LONG and clears, a LF
hands the accumulated line to doLoopLine, any other byte is appended and then
checked against a one-character expected answer (prompt with no terminator). -/
def doLoopChar (decode : DecodeFn) (st : A6State) (c : Nat) (now : Nat) :
    A6State × List A6Event :=
  if c = 0 ∨ c = 13 then (st, [])
  else if MAX_ANSWER - 2 ≤ st.lastAnswer.length then
    ({ st with gsmStatus := A6_TOO_LONG, lastAnswer := [] }, [])
  else if c = 10 then doLoopLine decode st now
  else
    let st1 := { st with lastAnswer := st.lastAnswer ++ [c] }
    if st.expectedAnswer = [c] then answerMatched st1
    else (st1, [])

/-- The timeout / wait part of FF_A6lib::doLoop (lines 214-268), executed when
no (more) serial data is available: answer timeout (ignore-errors bypass, then
partial-answer vs no-answer classification), the SMS-Ready wait, and the plain
timed wait. -/
def doLoopTail (st : A6State) (now : Nat) : A6State × List A6Event :=
  if st.inReceive = true ∧ st.gsmTimeout ≤ wsub32 now st.startTime then
    if st.ignoreErrors = true then
      if st.nextStepCb = true then (st, [A6Event.contInvoked]) else (setIdle st, [])
    else if st.lastAnswer ≠ [] then
      (setIdle { st with
          gsmStatus := A6_BAD_ANSWER, restartNeeded := true,
          restartReason := A6_BAD_ANSWER }, [])
    else
      (setIdle { st with
          gsmStatus := A6_TIMEOUT, restartNeeded := true,
          restartReason := A6_TIMEOUT }, [])
  else if st.inWaitSmsReady = true ∧ st.smsReady = true then
    let st1 := { st with inWait := false, inWaitSmsReady := false, gsmStatus := A6_OK }
    if st1.nextStepCb = true then (st1, [A6Event.contInvoked]) else (setIdle st1, [])
  else if st.inWait = true ∧ st.gsmTimeout ≤ wsub32 now st.startTime then
    let st1 := { st with inWait := false, gsmStatus := A6_OK }
    if st1.nextStepCb = true then (st1, [A6Event.contInvoked]) else (setIdle st1, [])
  else (st, [])

/-- FF_A6lib::getGsm7EquivalentLen: septet length of one UTF-8 character given
its up-to-three leading bytes, 0 when the character has no GSM-7 equivalent.
A direct transcription of the classification table. -/
def getGsm7EquivalentLen (c1 c2 c3 : Nat) : Nat :=
  if c1 = 0x0a ∨ c1 = 0x0d ∨ (0x20 ≤ c1 ∧ c1 ≤ 0x5a) ∨ c1 = 0x5f ∨
      (0x61 ≤ c1 ∧ c1 ≤ 0x7a) then 1
  else if c1 = 0xc2 ∧ (c2 = 0xa1 ∨ (0xa3 ≤ c2 ∧ c2 ≤ 0xa5) ∨ c2 = 0xa7 ∨
      c2 = 0xbf) then 1
  else if c1 = 0xc3 ∧ ((0x84 ≤ c2 ∧ c2 ≤ 0x87) ∨ c2 = 0x89 ∨ c2 = 0x91 ∨
      c2 = 0x96 ∨ c2 = 0x98 ∨ c2 = 0x9c ∨ (0x9f ≤ c2 ∧ c2 ≤ 0xa0) ∨
      (0xa4 ≤ c2 ∧ c2 ≤ 0xa6) ∨ (0xa8 ≤ c2 ∧ c2 ≤ 0xa9) ∨ c2 = 0xac ∨
      (0xb1 ≤ c2 ∧ c2 ≤ 0xb2) ∨ c2 = 0xb6 ∨ (0xb8 ≤ c2 ∧ c2 ≤ 0xb9) ∨
      c2 = 0xbc) then 1
  else if c1 = 0x0c ∨ (0x5b ≤ c1 ∧ c1 ≤ 0x5e) ∨ (0x7b ≤ c1 ∧ c1 ≤ 0x7e) then 2
  else if c1 = 0xe2 ∧ c2 = 0x82 ∧ c3 = 0xac then 2
  else 0

/-- The scan loop of FF_A6lib::sendSMS (lines 329-341): advances ONE BYTE per
iteration, feeding the byte at the current position and the next two bytes
(0 past the end) to getGsm7EquivalentLen; a zero equivalent length resets the
accumulator to 0 and stops. The accumulator is a uint16_t. -/
def gsm7Loop : List Nat → Nat → Nat
  | [], acc => acc
  | c1 :: rest, acc =>
    let c2 := rest.headD 0
    let c3 := (rest.drop 1).headD 0
    let l := getGsm7EquivalentLen c1 c2 c3
    if l = 0 then 0 else gsm7Loop rest ((acc + l) % 65536)

/-- The gsm7Length computed by FF_A6lib::sendSMS for a message: the scan runs
over the first `strlen(text) mod 2^16` bytes because utf8Length is a
uint16_t. -/
def gsm7Length (text : List Nat) : Nat :=
  gsm7Loop (text.take (text.length % 65536)) 0

/-- FF_A6lib::ucs2MessageLength: twice the number of UTF-8 lead bytes (bytes
whose top two bits are not 10), both counter and result being uint16_t. -/
def ucs2MessageLength (text : List Nat) : Nat :=
  (2 * ((text.countP (fun b => !(Nat.land b 0xc0 == 0x80))) % 65536)) % 65536

/-- FF_A6lib::sendOneSmsChunk: hand (number, text, msgId, msgCount, msgIndex)
to the codec; on encode error (negative length) bail out with no state change;
on success mark sending, bump the sent counter (unsigned int) and issue
AT+CMGS=len expecting the '>' prompt with the default timeout. -/
def sendOneSmsChunk (encode : EncodeFn) (st : A6State) (number text : List Nat)
    (msgId msgCount msgIndex : Nat) (now : Nat) : A6State × List A6Event :=
  let len := encode number text msgId msgCount msgIndex
  let ev0 := [A6Event.chunkToCodec number text msgId msgCount msgIndex]
  if len < 0 then (st, ev0)
  else
    let st1 := { st with
      gsmIdle := A6_SEND,
      smsSentCount := (st.smsSentCount + 1) % 4294967296 }
    let p := sendCommand st1 (bytesOf ("AT+CMGS=") ++ decimalBytes len.toNat)
      true (bytesOf (">")) A6_CMD_TIMEOUT now
    (p.1, ev0 ++ p.2)

/-- FF_A6lib::sendSMS (lines 321-376): classify the message via the byte-wise
GSM-7 scan, compute smsMsgCount / smsMsgId / smsChunkSize (uint8_t, unsigned
short, uint8_t), record the last sent number/message, and push the first (or
only) chunk. -/
def sendSMS (encode : EncodeFn) (st : A6State) (number text : List Nat)
    (now : Nat) : A6State × List A6Event :=
  let g := gsm7Length text
  let st0 := { st with gsm7Len := g }
  let st1 : A6State :=
    if g ≠ 0 then
      if 160 < g then
        { st0 with
          smsMsgCount := ((g + 151) / 152) % 256,
          smsMsgId := (st0.smsMsgId + 1) % 65536,
          smsChunkSize := 152 }
      else { st0 with smsMsgCount := 0 }
    else
      let u := ucs2MessageLength text
      if 70 < u then
        { st0 with
          smsMsgCount := ((u + 66) / 67) % 256,
          smsMsgId := (st0.smsMsgId + 1) % 65536,
          smsChunkSize := 67 }
      else { st0 with smsMsgCount := 0 }
  let st2 : A6State := { st1 with lastSentNumber := number, lastSentMessage := text }
  if st2.smsMsgCount = 0 then
    sendOneSmsChunk encode st2 number text 0 0 0 now
  else
    let st3 : A6State := { st2 with smsMsgIndex := 1 }
    sendOneSmsChunk encode st3 number (substringB text 0 st2.smsChunkSize)
      st2.smsMsgId st2.smsMsgCount 1 now

/-- FF_A6lib::sendNextSmsChunk: called when a chunk has been acknowledged; in
a multi-part message with chunks left, slice the next chunk from the saved
message (smsMsgIndex is a uint8_t) and push it, else setIdle. -/
def sendNextSmsChunk (encode : EncodeFn) (st : A6State) (now : Nat) :
    A6State × List A6Event :=
  if st.smsMsgCount ≠ 0 ∧ st.smsMsgIndex < st.smsMsgCount then
    let startPos := st.smsMsgIndex * st.smsChunkSize
    let st1 := { st with smsMsgIndex := (st.smsMsgIndex + 1) % 256 }
    sendOneSmsChunk encode st1 st.lastSentNumber
      (substringB st.lastSentMessage startPos (startPos + st.smsChunkSize))
      st.smsMsgId st.smsMsgCount st1.smsMsgIndex now
  else (setIdle st, [])

/-- Drive the acknowledgement loop: `pumpChunks k` models the modem
acknowledging k times, each acknowledgement firing the sendNextSmsChunk
continuation (as sendSMStext registers it on "+CMGS:"). -/
def pumpChunks (encode : EncodeFn) (now : Nat) : Nat → A6State → A6State × List A6Event
  | 0, st => (st, [])
  | k + 1, st =>
    let p := sendNextSmsChunk encode st now
    let q := pumpChunks encode now k p.1
    (q.1, p.2 ++ q.2)

/-- A chunk handed to the PDU codec, as recorded in the event stream. -/
structure SmsChunk where
  number : List Nat
  text : List Nat
  msgId : Nat
  msgCount : Nat
  msgIndex : Nat
deriving DecidableEq, Repr

/-- The chunks handed to the codec within an event stream. -/
def chunkEvents : List A6Event → List SmsChunk
  | [] => []
  | A6Event.chunkToCodec n t i c k :: rest =>
    { number := n, text := t, msgId := i, msgCount := c, msgIndex := k } :: chunkEvents rest
  | _ :: rest => chunkEvents rest

/-- Number of bytes of the UTF-8 sequence introduced by lead byte c1. -/
def utf8HeadBytes (c1 : Nat) : Nat :=
  if c1 < 0x80 then 1
  else if c1 < 0xc0 then 1
  else if c1 < 0xe0 then 2
  else if c1 < 0xf0 then 3
  else 4

/-- Modelled from the spec (section 4.5), missing from the code: scan the
UTF-8 text ONE CODE POINT at a time (advancing by the character's full UTF-8
byte count), classify each code point with the GSM-7 table, and sum the septet
lengths; `none` when some code point has no GSM-7 equivalent. The fuel
argument is the text length, an upper bound on the number of code points. -/
def specSeptetScanAux : Nat → List Nat → Option Nat
  | _, [] => some 0
  | 0, _ :: _ => none
  | fuel + 1, c1 :: rest =>
    let c2 := rest.headD 0
    let c3 := (rest.drop 1).headD 0
    let l := getGsm7EquivalentLen c1 c2 c3
    if l = 0 then none
    else
      match specSeptetScanAux fuel (rest.drop (utf8HeadBytes c1 - 1)) with
      | none => none
      | some s => some (l + s)

/-- Modelled from the spec: total GSM-7 septet length of a UTF-8 text under
per-code-point scanning, `none` if any code point is outside the table. -/
def specSeptetScan (text : List Nat) : Option Nat :=
  specSeptetScanAux text.length text

/-- Modelled from the spec (section 4.5): the code-point count of a UTF-8
text, "using the number of UTF-8 lead bytes as the code-point count". -/
def utf8CodePoints (text : List Nat) : Nat :=
  text.countP (fun b => !(Nat.land b 0xc0 == 0x80))

/-- Septet length of a single-byte (ASCII) character under the GSM-7 table:
1 for the plain set, 2 for the escape set, 0 otherwise. For such bytes
getGsm7EquivalentLen does not look at the following bytes. -/
def gsm7SingleByteLen (c1 : Nat) : Nat :=
  if c1 = 0x0a ∨ c1 = 0x0d ∨ (0x20 ≤ c1 ∧ c1 ≤ 0x5a) ∨ c1 = 0x5f ∨
      (0x61 ≤ c1 ∧ c1 ≤ 0x7a) then 1
  else if c1 = 0x0c ∨ (0x5b ≤ c1 ∧ c1 ≤ 0x5e) ∨ (0x7b ≤ c1 ∧ c1 ≤ 0x7e) then 2
  else 0

/-- A codec stub whose encodePDU always succeeds with PDU length 5. -/
def encFive : EncodeFn := fun _ _ _ _ _ => (5 : Int)

/-- A codec stub whose encodePDU always fails (OBSOLETE_ERROR). -/
def encFail : EncodeFn := fun _ _ _ _ _ => (-1 : Int)

/-- A codec stub whose decodePDU always fails. -/
def decodeNone : DecodeFn := fun _ => none

/-- A codec stub whose decodePDU always succeeds with fixed fields. -/
def decodeFix : DecodeFn :=
  fun _ => some (bytesOf ("+33612345678"), bytesOf ("24/12/23,12:00:00"), bytesOf ("Hello"))

/-- A destination number used by the concrete test vectors. -/
def numW : List Nat := bytesOf ("+33612345678")

/-- One Latin small letter e with acute accent (UTF-8 0xC3 0xA9): in the GSM-7
classification table with septet length 1, via a 2-byte UTF-8 encoding. -/
def textEacute : List Nat := [0xc3, 0xa9]

/-- A message of 100 e-acute characters: 100 code points, all in the GSM-7
table (100 septets), 200 UTF-8 bytes. -/
def textEacute100 : List Nat := (List.replicate 100 [0xc3, 0xa9]).flatten

/-- A 36-code-point message (one control byte 0x01 outside the GSM-7 table,
then 35 ASCII letters), forcing UCS-2 classification. -/
def textCp36 : List Nat := 1 :: List.replicate 35 97

/-- A GSM-7 message of exactly 161 septets made of 80 left square brackets
(2 septets each, escape set) and one letter (1 septet): 81 characters. -/
def textSeptets161Esc : List Nat := List.replicate 80 91 ++ [97]

/-- A GSM-7 message of 161 one-septet characters. -/
def textChars161 : List Nat := List.replicate 161 97

/-- A full answer buffer: 498 bytes, the overflow threshold of doLoop. -/
def fullAnswer : List Nat := List.replicate 498 65

/-- An engine state in the middle of awaiting an answer of a send command,
with a full answer buffer and no restart pending. -/
def stFullBuffer : A6State :=
  { initState with
    lastAnswer := fullAnswer, gsmIdle := A6_SEND, restartNeeded := false,
    gsmStatus := A6_RUNNING, inReceive := true,
    expectedAnswer := DEFAULT_ANSWER }

set_option maxRecDepth 100000

/-- Claim C3 (code bug): under per-code-point scanning (the spec's words and
the intent of getGsm7EquivalentLen's multi-byte table entries), the e-acute
character and a 100-character e-acute message are GSM-7 with septet lengths 1
and 100; but sendSMS's loop advances one byte per iteration, feeds the UTF-8
continuation byte 0xA9 as a lead byte, gets equivalent length 0 and resets
gsm7Length to 0, so the message is classified UCS-2 and split into 3 chunks
of 67 instead of being sent as a single GSM-7 part. -/
theorem c3_byte_scan_code_bug :
    specSeptetScan textEacute = some 1 ∧
    gsm7Length textEacute = 0 ∧
    specSeptetScan textEacute100 = some 100 ∧
    gsm7Length textEacute100 = 0 ∧
    (sendSMS encFive initState numW textEacute100 0).1.smsMsgCount = 3 ∧
    (sendSMS encFive initState numW textEacute100 0).1.smsChunkSize = 67 := by
  decide

/-- Claim C4 (code bug): a 36-code-point message classified UCS-2 is within
the documented 70-code-point single-part limit, yet sendSMS sets
smsMsgCount = 2 and splits it, because ucs2MessageLength returns twice the
code-point count (72 here) and the 70/67 thresholds are compared against that
doubled value. -/
theorem c4_ucs2_threshold_code_bug :
    utf8CodePoints textCp36 = 36 ∧
    36 ≤ 70 ∧
    ucs2MessageLength textCp36 = 72 ∧
    (sendSMS encFive initState numW textCp36 0).1.smsMsgCount = 2 := by
  decide

/-- Counterexample to claim C1 as stated: on buffer overflow the engine sets
status A6_TOO_LONG and clears the buffer, but it does NOT set the sticky
restart-request and does NOT force the engine to Idle: restartNeeded stays
false and gsmIdle stays A6_SEND. -/
theorem c1_overflow_counterexample :
    (doLoopChar decodeNone stFullBuffer 66 0).1.gsmStatus = A6_TOO_LONG ∧
    (doLoopChar decodeNone stFullBuffer 66 0).1.lastAnswer = [] ∧
    (doLoopChar decodeNone stFullBuffer 66 0).1.restartNeeded = false ∧
    (doLoopChar decodeNone stFullBuffer 66 0).1.gsmIdle = A6_SEND ∧
    A6_SEND ≠ A6_IDLE := by
  decide

/-- Counterexample to claim C5 as stated: a message of 100 e-acute characters
has every code point GSM-7-representable with total septet length 100 ≤ 160,
yet sendSMS does not set smsMsgCount to 0 and does not send a single chunk:
it sets smsMsgCount = 3 (UCS-2 fallback of the byte-wise scan). -/
theorem c5_single_part_counterexample :
    specSeptetScan textEacute100 = some 100 ∧
    (sendSMS encFive initState numW textEacute100 0).1.smsMsgCount = 3 ∧
    (3 : Nat) ≠ 0 := by
  decide

/-- Counterexample to claim C6 as stated: an 81-character message of exactly
161 septets (80 two-septet escape characters and one one-septet letter) is
split into 2 chunks, but by character count, not septet count: the chunks
carry 161 and 0 septets, not 152 and 9. -/
theorem c6_two_chunk_counterexample :
    specSeptetScan textSeptets161Esc = some 161 ∧
    gsm7Length textSeptets161Esc = 161 ∧
    ((chunkEvents ((sendSMS encFive initState numW textSeptets161Esc 0).2 ++
        (pumpChunks encFive 0 2 (sendSMS encFive initState numW textSeptets161Esc 0).1).2)).map
      (fun ch => gsm7Length ch.text)) = [161, 0] ∧
    ([161, 0] : List Nat) ≠ [152, 9] := by
  decide

/-- Counterexample to claim C10 as stated: smsSentCount is an unsigned 32-bit
counter; a successfully encoded chunk sent while the counter holds 2^32 - 1
wraps it to 0, a decrease. -/
theorem c10_sent_counter_counterexample :
    (sendOneSmsChunk encFive { initState with smsSentCount := 4294967295 }
        numW (bytesOf ("Hi")) 0 0 0 0).1.smsSentCount = 0 ∧
    (0 : Nat) < 4294967295 := by
  decide

/-- Unsigned 32-bit wrap-around subtraction agrees with plain subtraction when
no wrap occurs. -/
theorem wsub32_eq (a b : Nat) (hb : b < 4294967296) (hle : b ≤ a)
    (hd : a - b < 4294967296) : wsub32 a b = a - b := by
  unfold wsub32
  rw [Nat.mod_eq_of_lt hb]
  have h1 : a + (4294967296 - b) = (a - b) + 4294967296 := by omega
  rw [h1, Nat.add_mod_right, Nat.mod_eq_of_lt hd]

/-- Processing a completed line either leaves the answer buffer unchanged or
clears it: it never grows it. -/
theorem doLoopLine_answer_cases (d : DecodeFn) (st : A6State) (now : Nat) :
    (doLoopLine d st now).1.lastAnswer = st.lastAnswer ∨
    (doLoopLine d st now).1.lastAnswer = [] := by
  simp only [doLoopLine, answerMatched, setIdle]
  split_ifs <;> simp

/-- Claim C1 (amended): when appending a received character would make the
accumulated line reach the overflow threshold (MAX_ANSWER - 2 = 498), the
engine sets status A6_TOO_LONG and clears the buffer, changing nothing else:
in particular it does NOT set the restart-request and does NOT force Idle.
Moreover the buffer never exceeds 498 bytes, so nothing is ever written past
capacity. -/
theorem c1_overflow_behavior (d : DecodeFn) (st : A6State) (c now : Nat)
    (hcap : st.lastAnswer.length ≤ 498) :
    (498 ≤ st.lastAnswer.length → c ≠ 0 → c ≠ 13 →
      doLoopChar d st c now =
        ({ st with gsmStatus := A6_TOO_LONG, lastAnswer := [] }, [])) ∧
    (doLoopChar d st c now).1.lastAnswer.length ≤ 498 := by
  constructor
  · intro hlen h0 h13
    unfold doLoopChar
    rw [if_neg (by omega), if_pos (by simp [MAX_ANSWER]; omega)]
  · unfold doLoopChar
    split_ifs with h1 h2 h3 h4
    · exact hcap
    · simp
    · rcases doLoopLine_answer_cases d st now with h | h <;> rw [h]
      · exact hcap
      · simp
    · have hlt : st.lastAnswer.length < 498 := by
        simp [MAX_ANSWER] at h2; omega
      simp only [answerMatched, setIdle]
      split_ifs <;> simp <;> omega
    · have hlt : st.lastAnswer.length < 498 := by
        simp [MAX_ANSWER] at h2; omega
      simp; omega

/-- Witness for c1_overflow_behavior at a concrete full-buffer state. -/
theorem c1_overflow_behavior_witness :
    doLoopChar decodeNone stFullBuffer 66 0 =
      ({ stFullBuffer with gsmStatus := A6_TOO_LONG, lastAnswer := [] }, []) ∧
    (doLoopChar decodeNone stFullBuffer 66 0).1.lastAnswer.length ≤ 498 := by
  have h := c1_overflow_behavior decodeNone stFullBuffer 66 0 (by decide)
  exact ⟨h.1 (by decide) (by decide) (by decide), h.2⟩

/-- Claim C2: while awaiting an answer that never matches, the engine is left
unchanged by ticks with elapsed time below the timeout; once elapsed time
reaches the timeout it leaves the awaiting state: with "ignore errors" off it
sets the restart flag and goes Idle, classifying the failure as A6_TIMEOUT on
an empty answer buffer and A6_BAD_ANSWER on partial text; with "ignore
errors" on it fires the continuation and leaves the restart flag alone. -/
theorem c2_timeout_transition (st : A6State) (now : Nat)
    (hrecv : st.inReceive = true) (hwait : st.inWait = false)
    (hwsr : st.inWaitSmsReady = false)
    (hstart : st.startTime < 4294967296) (hle : st.startTime ≤ now)
    (hdiff : now - st.startTime < 4294967296) :
    (now - st.startTime < st.gsmTimeout → doLoopTail st now = (st, [])) ∧
    (st.gsmTimeout ≤ now - st.startTime →
      ((st.ignoreErrors = true →
          (doLoopTail st now).1.restartNeeded = st.restartNeeded ∧
          (st.nextStepCb = true → doLoopTail st now = (st, [A6Event.contInvoked]))) ∧
       (st.ignoreErrors = false → st.lastAnswer = [] →
          doLoopTail st now =
            ({ st with
                gsmStatus := A6_TIMEOUT, restartNeeded := true,
                restartReason := A6_TIMEOUT, gsmIdle := A6_IDLE,
                inReceive := false, lastAnswer := [] }, [])) ∧
       (st.ignoreErrors = false → st.lastAnswer ≠ [] →
          doLoopTail st now =
            ({ st with
                gsmStatus := A6_BAD_ANSWER, restartNeeded := true,
                restartReason := A6_BAD_ANSWER, gsmIdle := A6_IDLE,
                inReceive := false, lastAnswer := [] }, [])))) := by
  have hw : wsub32 now st.startTime = now - st.startTime :=
    wsub32_eq now st.startTime hstart hle hdiff
  constructor
  · intro hlt
    unfold doLoopTail
    rw [hw, if_neg (by omega), if_neg (by simp [hwsr]), if_neg (by simp [hwait])]
  · intro hto
    refine ⟨fun hig => ?_, fun hig hemp => ?_, fun hig hne => ?_⟩
    · unfold doLoopTail
      rw [hw, if_pos ⟨hrecv, hto⟩, if_pos hig]
      constructor
      · split_ifs <;> rfl
      · intro hcb; rw [if_pos hcb]
    · unfold doLoopTail
      rw [hw, if_pos ⟨hrecv, hto⟩, if_neg (by simp [hig]), if_neg (by simp [hemp])]
      simp [setIdle]
    · unfold doLoopTail
      rw [hw, if_pos ⟨hrecv, hto⟩, if_neg (by simp [hig]), if_pos hne]
      simp [setIdle]

/-- An engine state awaiting the answer of a 4-second command issued at
millis() = 1000, with an empty answer buffer. -/
def stAwait : A6State :=
  { initState with
    inReceive := true, inWait := false, inWaitSmsReady := false,
    ignoreErrors := false, restartNeeded := false,
    gsmStatus := A6_RUNNING, gsmTimeout := 4000, startTime := 1000,
    lastAnswer := [], expectedAnswer := DEFAULT_ANSWER }

/-- Witness for c2_timeout_transition: at 1500 ms (elapsed 500 < 4000) the
state is untouched; at 5000 ms (elapsed 4000) the A6_TIMEOUT classification
fires. -/
theorem c2_timeout_transition_witness :
    doLoopTail stAwait 1500 = (stAwait, []) ∧
    doLoopTail stAwait 5000 =
      ({ stAwait with
          gsmStatus := A6_TIMEOUT, restartNeeded := true,
          restartReason := A6_TIMEOUT, gsmIdle := A6_IDLE,
          inReceive := false, lastAnswer := [] }, []) := by
  refine ⟨(c2_timeout_transition stAwait 1500 (by decide) (by decide) (by decide)
      (by decide) (by decide) (by decide)).1 (by decide),
    (((c2_timeout_transition stAwait 5000 (by decide) (by decide) (by decide)
      (by decide) (by decide) (by decide)).2 (by decide)).2.1 (by decide) (by decide))⟩

/-- Claim C7: while awaiting an answer with "ignore errors" off, a completed
line that does not match the expected pattern but contains "+CMS ERROR" or
"+CME ERROR" immediately fails the command with status A6_CM_ERROR, sets the
restart request with that reason, and goes Idle. (The opportunistic SMS-Ready
capture is excluded by hypothesis: it consumes a line first when the ready
signal has not yet been seen.) -/
theorem c7_cm_error_failure (d : DecodeFn) (st : A6State) (now : Nat)
    (hrecv : st.inReceive = true) (hig : st.ignoreErrors = false)
    (hready : st.smsReady = true ∨ hasSub st.lastAnswer SMS_READY_MSG = false)
    (hnm : answerMatches st.expectedAnswer st.lastAnswer = false)
    (herr : hasSub st.lastAnswer CMS_ERROR_MSG = true ∨
        hasSub st.lastAnswer CME_ERROR_MSG = true) :
    doLoopLine d st now =
      ({ st with
          gsmStatus := A6_CM_ERROR, restartNeeded := true,
          restartReason := A6_CM_ERROR, gsmIdle := A6_IDLE,
          inReceive := false, lastAnswer := [] }, []) := by
  simp only [doLoopLine]
  rw [if_neg (by rcases hready with h | h <;> simp [h]),
      if_neg (by simp [hnm]),
      if_pos ⟨hrecv, hig, herr⟩]
  rfl

/-- An engine state awaiting "+CMGS:" whose accumulated line is a CMS error
report. -/
def stCmsError : A6State :=
  { stAwait with
    expectedAnswer := bytesOf ("+CMGS:"),
    lastAnswer := bytesOf ("+CMS ERROR: 500") }

/-- Witness for c7_cm_error_failure at a concrete error line. -/
theorem c7_cm_error_failure_witness :
    doLoopLine decodeNone stCmsError 0 =
      ({ stCmsError with
          gsmStatus := A6_CM_ERROR, restartNeeded := true,
          restartReason := A6_CM_ERROR, gsmIdle := A6_IDLE,
          inReceive := false, lastAnswer := [] }, []) :=
  c7_cm_error_failure decodeNone stCmsError 0 (by decide) (by decide)
    (by decide) (by decide) (by decide)

/-- deleteSMS(1,2) issues the literal command AT+CMGD=1,2 with the default
expected answer, a 10 s timeout and the setIdle continuation. -/
theorem deleteSMS_12_eq (st : A6State) (now : Nat) :
    deleteSMS st 1 2 now =
      ({ st with
          commandCount := (st.commandCount + 1) % 4294967296,
          gsmTimeout := 10000, gsmStatus := A6_RUNNING, nextStepCb := true,
          expectedAnswer := DEFAULT_ANSWER,
          lastCommand := bytesOf ("AT+CMGD=1,2"), lastAnswer := [],
          startTime := now, inReceive := true, inWait := false,
          inWaitSmsReady := false, nextLineIsSmsMessage := false },
        [A6Event.cmdIssued (bytesOf ("AT+CMGD=1,2"))]) := by
  have h1 : bytesOf ("AT+CMGD=") ++ decimalBytes 1 ++ [44] ++ decimalBytes 2 =
      bytesOf ("AT+CMGD=1,2") := by decide
  have h2 : (bytesOf ("AT+CMGD=1,2")).take 30 = bytesOf ("AT+CMGD=1,2") := by decide
  simp only [deleteSMS, h1]
  simp only [sendCommand]
  rw [if_pos (by decide)]
  rw [h2]

/-- Claim C8: answer matching. With the generic DEFAULT_ANSWER expected, a
completed line matches only by exact equality (a different line is never
treated as a match); with any other expected pattern, substring containment
suffices; a one-character expected answer (such as the '>' prompt) matches as
soon as that character arrives, with no line terminator; every match clears
the error status to A6_OK and fires the continuation if present, else goes
Idle. -/
theorem c8_answer_matching (d : DecodeFn) (st : A6State) (c now : Nat)
    (hrecv : st.inReceive = true)
    (hready : st.smsReady = true ∨ hasSub st.lastAnswer SMS_READY_MSG = false) :
    ((st.expectedAnswer = DEFAULT_ANSWER → st.lastAnswer = DEFAULT_ANSWER →
        doLoopLine d st now =
          (if st.nextStepCb = true then
            ({ st with gsmStatus := A6_OK }, [A6Event.contInvoked])
          else
            ({ st with
                gsmStatus := A6_OK, gsmIdle := A6_IDLE,
                inReceive := false, lastAnswer := [] }, []))) ∧
     (st.expectedAnswer = DEFAULT_ANSWER → st.lastAnswer ≠ DEFAULT_ANSWER →
        st.gsmStatus = A6_RUNNING →
        (doLoopLine d st now).1.gsmStatus ≠ A6_OK ∧
        A6Event.contInvoked ∉ (doLoopLine d st now).2) ∧
     (st.expectedAnswer ≠ DEFAULT_ANSWER →
        hasSub st.lastAnswer st.expectedAnswer = true →
        doLoopLine d st now =
          (if st.nextStepCb = true then
            ({ st with gsmStatus := A6_OK }, [A6Event.contInvoked])
          else
            ({ st with
                gsmStatus := A6_OK, gsmIdle := A6_IDLE,
                inReceive := false, lastAnswer := [] }, []))) ∧
     (c ≠ 0 → c ≠ 13 → c ≠ 10 → st.lastAnswer.length < 498 →
        st.expectedAnswer = [c] →
        doLoopChar d st c now =
          (if st.nextStepCb = true then
            ({ st with
                lastAnswer := st.lastAnswer ++ [c], gsmStatus := A6_OK },
              [A6Event.contInvoked])
          else
            ({ st with
                gsmStatus := A6_OK, gsmIdle := A6_IDLE,
                inReceive := false, lastAnswer := [] }, [])))) := by
  have hnotready : ¬(st.smsReady = false ∧ hasSub st.lastAnswer SMS_READY_MSG = true) := by
    rcases hready with h | h <;> simp [h]
  refine ⟨fun hdef heq => ?_, fun hdef hne hst => ?_, fun hnd hsub => ?_,
    fun h0 h13 h10 hlen hexp => ?_⟩
  · simp only [doLoopLine]
    rw [if_neg hnotready,
      if_pos ⟨hrecv, by simp [answerMatches, hdef, heq]⟩]
    simp [answerMatched, setIdle]
  · have hm : answerMatches st.expectedAnswer st.lastAnswer = false := by
      simp [answerMatches, hdef, hne]
    simp only [doLoopLine]
    rw [if_neg hnotready, if_neg (by simp [hm])]
    by_cases hcm : st.inReceive = true ∧ st.ignoreErrors = false ∧
        (hasSub st.lastAnswer CMS_ERROR_MSG = true ∨ hasSub st.lastAnswer CME_ERROR_MSG = true)
    · rw [if_pos hcm]
      exact ⟨by simp [setIdle, A6_CM_ERROR, A6_OK], by simp⟩
    · rw [if_neg hcm]
      by_cases hne2 : st.lastAnswer ≠ []
      · rw [if_pos hne2]
        by_cases hsms : st.nextLineIsSmsMessage = true
        · rw [if_pos hsms]
          simp only [readSmsMessage]
          cases hd : d st.lastAnswer with
          | none =>
            exact ⟨by simp [deleteSMS_12_eq, A6_RUNNING, A6_OK],
              by simp [deleteSMS_12_eq]⟩
          | some v =>
            obtain ⟨s1, d1, m1⟩ := v
            refine ⟨by simp [deleteSMS_12_eq, A6_RUNNING, A6_OK], ?_⟩
            by_cases hcb : st.readSmsCb = true <;> simp [hcb, deleteSMS_12_eq]
        · rw [if_neg hsms]
          by_cases hind : hasSub st.lastAnswer SMS_INDICATOR = true
          · rw [if_pos hind]
            refine ⟨?_, by simp⟩
            simp only [readSmsHeader]
            split_ifs <;> simp [hst, A6_RUNNING, A6_OK]
          · rw [if_neg hind]
            refine ⟨by simp [hst, A6_RUNNING, A6_OK], ?_⟩
            by_cases hcb : st.recvLineCb = true <;> simp [hcb]
      · rw [if_neg hne2]
        exact ⟨by simp [hst, A6_RUNNING, A6_OK], by simp⟩
  · simp only [doLoopLine]
    rw [if_neg hnotready,
      if_pos ⟨hrecv, by simp [answerMatches, hnd, hsub]⟩]
    simp [answerMatched, setIdle]
  · simp only [doLoopChar]
    rw [if_neg (by omega), if_neg (by simp [MAX_ANSWER]; omega),
      if_neg h10, if_pos hexp]
    simp [answerMatched, setIdle]

/-- A state awaiting the default answer whose accumulated line is exactly
"OK", with a continuation pending. -/
def stMatchOk : A6State :=
  { stAwait with lastAnswer := DEFAULT_ANSWER, nextStepCb := true }

/-- A state awaiting the '>' SMS-send prompt, with a continuation pending. -/
def stPrompt : A6State :=
  { stAwait with expectedAnswer := bytesOf (">"), nextStepCb := true }

/-- Witness for c8_answer_matching: the exact "OK" line matches and fires the
continuation; the '>' prompt character matches with no terminator. -/
theorem c8_answer_matching_witness :
    doLoopLine decodeNone stMatchOk 0 =
      ({ stMatchOk with gsmStatus := A6_OK }, [A6Event.contInvoked]) ∧
    doLoopChar decodeNone stPrompt 62 0 =
      ({ stPrompt with lastAnswer := [62], gsmStatus := A6_OK },
        [A6Event.contInvoked]) := by
  constructor
  · have h := (c8_answer_matching decodeNone stMatchOk 0 0 (by decide)
      (by decide)).1 (by decide) (by decide)
    rw [h]; decide
  · have h := (c8_answer_matching decodeNone stPrompt 62 0 (by decide)
      (by decide)).2.2.2 (by decide) (by decide) (by decide) (by decide) (by decide)
    rw [h]; decide

/-- Claim C9: a line containing the unsolicited "+CMT: " indicator arms the
next-line-is-PDU flag (recording the indicator as the pseudo command and
restarting the answer clock); the following line disarms the flag and is
decoded: on success the sender/timestamp/text are stored, the forwarded
counter is bumped and the registered receive callback fires; on failure no
callback fires and the stored fields are untouched; in both cases the
storage-delete command AT+CMGD=1,2 (delete read or sent) is issued. -/
theorem c9_sms_reception (d : DecodeFn) (st : A6State) (now : Nat)
    (hready : st.smsReady = true ∨ hasSub st.lastAnswer SMS_READY_MSG = false)
    (hnm : st.inReceive = true → answerMatches st.expectedAnswer st.lastAnswer = false)
    (hcms : hasSub st.lastAnswer CMS_ERROR_MSG = false)
    (hcme : hasSub st.lastAnswer CME_ERROR_MSG = false) :
    ((st.nextLineIsSmsMessage = false → hasSub st.lastAnswer SMS_INDICATOR = true →
        doLoopLine d st now =
          ({ st with
              index := 0, nextLineIsSmsMessage := true,
              lastCommand := st.lastAnswer.take 30, lastAnswer := [],
              inReceive := true, startTime := now }, [])) ∧
     (st.nextLineIsSmsMessage = true → st.lastAnswer ≠ [] →
        ((∀ s1 d1 m1, d st.lastAnswer = some (s1, d1, m1) → st.readSmsCb = true →
            doLoopLine d st now =
              ({ st with
                  lastReceivedNumber := s1, lastReceivedDate := d1,
                  lastReceivedMessage := m1,
                  smsForwardedCount := (st.smsForwardedCount + 1) % 4294967296,
                  commandCount := (st.commandCount + 1) % 4294967296,
                  gsmTimeout := 10000, gsmStatus := A6_RUNNING,
                  nextStepCb := true, expectedAnswer := DEFAULT_ANSWER,
                  lastCommand := bytesOf ("AT+CMGD=1,2"), lastAnswer := [],
                  startTime := now, inReceive := true, inWait := false,
                  inWaitSmsReady := false, nextLineIsSmsMessage := false },
                [A6Event.smsCb s1 d1 m1,
                  A6Event.cmdIssued (bytesOf ("AT+CMGD=1,2"))])) ∧
         (d st.lastAnswer = none →
            doLoopLine d st now =
              ({ st with
                  commandCount := (st.commandCount + 1) % 4294967296,
                  gsmTimeout := 10000, gsmStatus := A6_RUNNING,
                  nextStepCb := true, expectedAnswer := DEFAULT_ANSWER,
                  lastCommand := bytesOf ("AT+CMGD=1,2"), lastAnswer := [],
                  startTime := now, inReceive := true, inWait := false,
                  inWaitSmsReady := false, nextLineIsSmsMessage := false },
                [A6Event.cmdIssued (bytesOf ("AT+CMGD=1,2"))]))))) := by
  have hnotready : ¬(st.smsReady = false ∧ hasSub st.lastAnswer SMS_READY_MSG = true) := by
    rcases hready with h | h <;> simp [h]
  have hnomatch : ¬(st.inReceive = true ∧
      answerMatches st.expectedAnswer st.lastAnswer = true) := by
    rintro ⟨h1, h2⟩
    rw [hnm h1] at h2
    cases h2
  have hnocm : ¬(st.inReceive = true ∧ st.ignoreErrors = false ∧
      (hasSub st.lastAnswer CMS_ERROR_MSG = true ∨
        hasSub st.lastAnswer CME_ERROR_MSG = true)) := by
    simp [hcms, hcme]
  constructor
  · intro hflag hind
    have hne : st.lastAnswer ≠ [] := by
      intro h
      rw [h] at hind
      exact absurd hind (by decide)
    simp only [doLoopLine]
    rw [if_neg hnotready, if_neg hnomatch, if_neg hnocm, if_pos hne,
      if_neg (by simp [hflag]), if_pos hind]
    simp only [readSmsHeader]
    rw [if_pos hind]
  · intro hflag hne
    constructor
    · intro s1 d1 m1 hd hcb
      simp only [doLoopLine]
      rw [if_neg hnotready, if_neg hnomatch, if_neg hnocm, if_pos hne,
        if_pos hflag]
      simp only [readSmsMessage, hd]
      simp [deleteSMS_12_eq, hcb]
    · intro hd
      simp only [doLoopLine]
      rw [if_neg hnotready, if_neg hnomatch, if_neg hnocm, if_pos hne,
        if_pos hflag]
      simp only [readSmsMessage, hd]
      simp [deleteSMS_12_eq]

/-- A state (idle wait for an answer) whose accumulated line is an SMS
indicator header. -/
def stIndicator : A6State :=
  { stAwait with lastAnswer := bytesOf ("+CMT: ,33") }

/-- A state with the next-line-is-PDU flag armed, a registered receive
callback, and an accumulated PDU hex line (the example from the source). -/
def stPduLine : A6State :=
  { stAwait with
    nextLineIsSmsMessage := true, readSmsCb := true,
    lastAnswer := bytesOf ("07913396050066F0040B913306672146F00000328041102270800FCDF27C1E3E9741E432885E9ED301") }

/-- Witness for c9_sms_reception: the indicator line arms the flag; the PDU
line with a succeeding decode fires the callback and the delete command; with
a failing decode only the delete command is issued. -/
theorem c9_sms_reception_witness :
    doLoopLine decodeFix stIndicator 500 =
      ({ stIndicator with
          index := 0, nextLineIsSmsMessage := true,
          lastCommand := stIndicator.lastAnswer.take 30, lastAnswer := [],
          inReceive := true, startTime := 500 }, []) ∧
    doLoopLine decodeFix stPduLine 600 =
      ({ stPduLine with
          lastReceivedNumber := bytesOf ("+33612345678"),
          lastReceivedDate := bytesOf ("24/12/23,12:00:00"),
          lastReceivedMessage := bytesOf ("Hello"),
          smsForwardedCount := (stPduLine.smsForwardedCount + 1) % 4294967296,
          commandCount := (stPduLine.commandCount + 1) % 4294967296,
          gsmTimeout := 10000, gsmStatus := A6_RUNNING,
          nextStepCb := true, expectedAnswer := DEFAULT_ANSWER,
          lastCommand := bytesOf ("AT+CMGD=1,2"), lastAnswer := [],
          startTime := 600, inReceive := true, inWait := false,
          inWaitSmsReady := false, nextLineIsSmsMessage := false },
        [A6Event.smsCb (bytesOf ("+33612345678")) (bytesOf ("24/12/23,12:00:00"))
            (bytesOf ("Hello")),
          A6Event.cmdIssued (bytesOf ("AT+CMGD=1,2"))]) ∧
    doLoopLine decodeNone stPduLine 700 =
      ({ stPduLine with
          commandCount := (stPduLine.commandCount + 1) % 4294967296,
          gsmTimeout := 10000, gsmStatus := A6_RUNNING,
          nextStepCb := true, expectedAnswer := DEFAULT_ANSWER,
          lastCommand := bytesOf ("AT+CMGD=1,2"), lastAnswer := [],
          startTime := 700, inReceive := true, inWait := false,
          inWaitSmsReady := false, nextLineIsSmsMessage := false },
        [A6Event.cmdIssued (bytesOf ("AT+CMGD=1,2"))]) := by
  refine ⟨?_, ?_, ?_⟩
  · exact (c9_sms_reception decodeFix stIndicator 500 (by decide) (by decide)
      (by decide) (by decide)).1 (by decide) (by decide)
  · exact ((c9_sms_reception decodeFix stPduLine 600 (by decide) (by decide)
      (by decide) (by decide)).2 (by decide) (by decide)).1
      (bytesOf ("+33612345678")) (bytesOf ("24/12/23,12:00:00"))
      (bytesOf ("Hello")) (by decide) (by decide)
  · exact ((c9_sms_reception decodeNone stPduLine 700 (by decide) (by decide)
      (by decide) (by decide)).2 (by decide) (by decide)).2 (by decide)

/-- For a byte whose single-byte septet length is nonzero, getGsm7EquivalentLen
does not look at the following bytes. -/
theorem getGsm7_single (c1 c2 c3 : Nat) (h : gsm7SingleByteLen c1 ≠ 0) :
    getGsm7EquivalentLen c1 c2 c3 = gsm7SingleByteLen c1 := by
  unfold getGsm7EquivalentLen gsm7SingleByteLen at *
  split_ifs at * <;> omega

/-- On a message made of single-byte GSM-7 characters the byte-wise scan sums
their septet lengths (accumulating mod 2^16). -/
theorem gsm7Loop_sum (text : List Nat)
    (h : ∀ b ∈ text, gsm7SingleByteLen b ≠ 0) :
    ∀ acc, acc < 65536 →
      gsm7Loop text acc = (acc + (text.map gsm7SingleByteLen).sum) % 65536 := by
  induction text with
  | nil =>
    intro acc hacc
    simp [gsm7Loop, Nat.mod_eq_of_lt hacc]
  | cons b rest ih =>
    intro acc hacc
    have hb : gsm7SingleByteLen b ≠ 0 := h b (by simp)
    have hrest : ∀ x ∈ rest, gsm7SingleByteLen x ≠ 0 := fun x hx => h x (by simp [hx])
    simp only [gsm7Loop]
    rw [getGsm7_single b (rest.headD 0) ((rest.drop 1).headD 0) hb]
    rw [if_neg hb]
    rw [ih hrest _ (Nat.mod_lt _ (by norm_num))]
    simp only [List.map_cons, List.sum_cons]
    rw [Nat.mod_add_mod]
    congr 1
    omega

/-- Every single-byte GSM-7 character is at least one septet, so the character
count bounds the septet sum. -/
theorem length_le_gsm7sum (text : List Nat)
    (h : ∀ b ∈ text, gsm7SingleByteLen b ≠ 0) :
    text.length ≤ (text.map gsm7SingleByteLen).sum := by
  induction text with
  | nil => simp
  | cons b rest ih =>
    have hb := h b (by simp)
    have hr := ih (fun x hx => h x (by simp [hx]))
    simp only [List.length_cons, List.map_cons, List.sum_cons]
    omega

/-- gsm7Length is the plain septet sum for an all-single-byte message whose
sum is below 2^16 (no uint16_t wrap, no truncation of strlen). -/
theorem gsm7Length_eq_sum (text : List Nat)
    (h : ∀ b ∈ text, gsm7SingleByteLen b ≠ 0)
    (hlt : (text.map gsm7SingleByteLen).sum < 65536) :
    gsm7Length text = (text.map gsm7SingleByteLen).sum := by
  have hlen : text.length < 65536 := lt_of_le_of_lt (length_le_gsm7sum text h) hlt
  unfold gsm7Length
  rw [Nat.mod_eq_of_lt hlen, List.take_length]
  rw [gsm7Loop_sum text h 0 (by norm_num)]
  simpa using Nat.mod_eq_of_lt hlt

/-- sendOneSmsChunk on a succeeding encode: mark sending, bump the sent
counter and issue AT+CMGS with the '>' prompt expected. -/
theorem sendOneSmsChunk_success (encode : EncodeFn) (st : A6State)
    (number text : List Nat) (msgId msgCount msgIndex now : Nat)
    (henc : 0 ≤ encode number text msgId msgCount msgIndex) :
    sendOneSmsChunk encode st number text msgId msgCount msgIndex now =
      ({ st with
          gsmIdle := A6_SEND,
          smsSentCount := (st.smsSentCount + 1) % 4294967296,
          commandCount := (st.commandCount + 1) % 4294967296,
          gsmTimeout := A6_CMD_TIMEOUT, gsmStatus := A6_RUNNING,
          nextStepCb := true, expectedAnswer := bytesOf (">"),
          lastCommand := (bytesOf ("AT+CMGS=") ++
            decimalBytes (encode number text msgId msgCount msgIndex).toNat).take 30,
          lastAnswer := [], startTime := now, inReceive := true,
          inWait := false, inWaitSmsReady := false,
          nextLineIsSmsMessage := false },
        [A6Event.chunkToCodec number text msgId msgCount msgIndex,
          A6Event.cmdIssued (bytesOf ("AT+CMGS=") ++
            decimalBytes (encode number text msgId msgCount msgIndex).toNat)]) := by
  have hne : bytesOf ("AT+CMGS=") ++
      decimalBytes (encode number text msgId msgCount msgIndex).toNat ≠ [] := by
    intro h
    exact absurd (List.append_eq_nil.mp h).1 (by decide)
  simp only [sendOneSmsChunk]
  rw [if_neg (by omega)]
  simp only [sendCommand]
  rw [if_pos hne]
  rfl

/-- sendOneSmsChunk on a failing encode: no state change, the chunk was only
offered to the codec. -/
theorem sendOneSmsChunk_failure (encode : EncodeFn) (st : A6State)
    (number text : List Nat) (msgId msgCount msgIndex now : Nat)
    (henc : encode number text msgId msgCount msgIndex < 0) :
    sendOneSmsChunk encode st number text msgId msgCount msgIndex now =
      (st, [A6Event.chunkToCodec number text msgId msgCount msgIndex]) := by
  simp only [sendOneSmsChunk]
  rw [if_pos henc]

/-- sendSMS on a single-part GSM-7 classification (0 < septets ≤ 160). -/
theorem sendSMS_single_gsm7 (encode : EncodeFn) (st : A6State)
    (number text : List Nat) (now : Nat)
    (hnz : gsm7Length text ≠ 0) (hle : gsm7Length text ≤ 160) :
    sendSMS encode st number text now =
      sendOneSmsChunk encode
        { st with
            gsm7Len := gsm7Length text, smsMsgCount := 0,
            lastSentNumber := number, lastSentMessage := text }
        number text 0 0 0 now := by
  simp only [sendSMS]
  split_ifs <;> first
    | rfl
    | omega
    | simp_all

/-- sendSMS on a single-part UCS-2 classification (no GSM-7 equivalent,
doubled code-point count at most 70). -/
theorem sendSMS_single_ucs2 (encode : EncodeFn) (st : A6State)
    (number text : List Nat) (now : Nat)
    (hz : gsm7Length text = 0) (hu : ucs2MessageLength text ≤ 70) :
    sendSMS encode st number text now =
      sendOneSmsChunk encode
        { st with
            gsm7Len := 0, smsMsgCount := 0,
            lastSentNumber := number, lastSentMessage := text }
        number text 0 0 0 now := by
  simp only [sendSMS, hz]
  split_ifs <;> first
    | rfl
    | omega
    | simp_all

/-- sendSMS on a multi-part GSM-7 classification (septets > 160): allocate a
fresh message id, chunk size 152 characters, and push the first chunk with
index 1. -/
theorem sendSMS_multipart_gsm7 (encode : EncodeFn) (st : A6State)
    (number text : List Nat) (now : Nat)
    (hgt : 160 < gsm7Length text)
    (hcnt : ((gsm7Length text + 151) / 152) % 256 ≠ 0) :
    sendSMS encode st number text now =
      sendOneSmsChunk encode
        { st with
            gsm7Len := gsm7Length text,
            smsMsgCount := ((gsm7Length text + 151) / 152) % 256,
            smsMsgId := (st.smsMsgId + 1) % 65536, smsChunkSize := 152,
            lastSentNumber := number, lastSentMessage := text,
            smsMsgIndex := 1 }
        number (substringB text 0 152)
        ((st.smsMsgId + 1) % 65536) (((gsm7Length text + 151) / 152) % 256) 1 now := by
  simp only [sendSMS]
  split_ifs <;> first
    | rfl
    | omega
    | simp_all

/-- Claim C5 (amended): for a message all of whose code points are single-byte
(ASCII) GSM-7 characters with total septet length at most 160, sendSMS sets
smsMsgCount to 0 and hands exactly one chunk (the whole text, with no
multi-part header fields) to the codec, issuing one AT+CMGS command; the
acknowledgement then returns the engine to Idle with no further chunk. (For
GSM-7 code points with 2- or 3-byte UTF-8 encodings the byte-wise scan falls
back to UCS-2 instead: see the counterexample.) -/
theorem c5_single_part_gsm7 (encode : EncodeFn) (st : A6State)
    (number text : List Nat) (now : Nat)
    (hall : ∀ b ∈ text, gsm7SingleByteLen b ≠ 0)
    (hsum : (text.map gsm7SingleByteLen).sum ≤ 160)
    (henc : 0 ≤ encode number text 0 0 0) :
    (sendSMS encode st number text now).1.smsMsgCount = 0 ∧
    (sendSMS encode st number text now).2 =
      [A6Event.chunkToCodec number text 0 0 0,
        A6Event.cmdIssued (bytesOf ("AT+CMGS=") ++
          decimalBytes (encode number text 0 0 0).toNat)] ∧
    sendNextSmsChunk encode (sendSMS encode st number text now).1 now =
      (setIdle (sendSMS encode st number text now).1, []) := by
  have hg : gsm7Length text = (text.map gsm7SingleByteLen).sum :=
    gsm7Length_eq_sum text hall (by omega)
  have hplan : sendSMS encode st number text now =
      sendOneSmsChunk encode
        { st with
            gsm7Len := gsm7Length text, smsMsgCount := 0,
            lastSentNumber := number, lastSentMessage := text }
        number text 0 0 0 now := by
    by_cases hz : gsm7Length text = 0
    · have hlen0 : text.length = 0 := by
        have h1 := length_le_gsm7sum text hall
        omega
      have htxt : text = [] := List.eq_nil_of_length_eq_zero hlen0
      subst htxt
      exact sendSMS_single_ucs2 encode st number [] now (by decide) (by decide)
    · exact sendSMS_single_gsm7 encode st number text now hz (by omega)
  rw [hplan, sendOneSmsChunk_success encode _ number text 0 0 0 now henc]
  refine ⟨rfl, rfl, ?_⟩
  simp only [sendNextSmsChunk]
  rw [if_neg (by simp)]

/-- Witness for c5_single_part_gsm7 on "Hello" (5 septets, 1 chunk). -/
theorem c5_single_part_gsm7_witness :
    (sendSMS encFive initState numW (bytesOf ("Hello")) 0).1.smsMsgCount = 0 ∧
    (sendSMS encFive initState numW (bytesOf ("Hello")) 0).2 =
      [A6Event.chunkToCodec numW (bytesOf ("Hello")) 0 0 0,
        A6Event.cmdIssued (bytesOf ("AT+CMGS=5"))] ∧
    sendNextSmsChunk encFive (sendSMS encFive initState numW (bytesOf ("Hello")) 0).1 0 =
      (setIdle (sendSMS encFive initState numW (bytesOf ("Hello")) 0).1, []) := by
  have h := c5_single_part_gsm7 encFive initState numW (bytesOf ("Hello")) 0
    (by decide) (by decide) (by decide)
  refine ⟨h.1, ?_, h.2.2⟩
  rw [h.2.1]
  decide

/-- On an all-one-septet message the septet sum is the character count. -/
theorem gsm7sum_all_one (text : List Nat)
    (h : ∀ b ∈ text, gsm7SingleByteLen b = 1) :
    (text.map gsm7SingleByteLen).sum = text.length := by
  induction text with
  | nil => simp
  | cons b rest ih =>
    simp only [List.map_cons, List.sum_cons, List.length_cons]
    rw [h b (by simp), ih (fun x hx => h x (by simp [hx]))]
    omega

/-- Claim C6 (amended): a message of exactly 161 one-septet GSM-7 characters
is sent as exactly 2 chunks, the first of 152 characters (152 septets) and
the second of 9 characters (9 septets), both carrying the freshly incremented
multi-part message id, 1-based indices 1 and 2 and total count 2; after the
second acknowledgement the engine is Idle. (Chunks are sliced by character
count, so a message of 161 septets containing 2-septet escape characters
yields different septet sizes: see the counterexample.) -/
theorem c6_two_chunk_split (encode : EncodeFn) (st : A6State)
    (number text : List Nat) (now : Nat)
    (hlen : text.length = 161)
    (hall : ∀ b ∈ text, gsm7SingleByteLen b = 1)
    (henc1 : 0 ≤ encode number (text.take 152) ((st.smsMsgId + 1) % 65536) 2 1)
    (henc2 : 0 ≤ encode number (text.drop 152) ((st.smsMsgId + 1) % 65536) 2 2) :
    chunkEvents ((sendSMS encode st number text now).2 ++
        (pumpChunks encode now 2 (sendSMS encode st number text now).1).2) =
      [{ number := number, text := text.take 152,
         msgId := (st.smsMsgId + 1) % 65536, msgCount := 2, msgIndex := 1 },
       { number := number, text := text.drop 152,
         msgId := (st.smsMsgId + 1) % 65536, msgCount := 2, msgIndex := 2 }] ∧
    gsm7Length (text.take 152) = 152 ∧
    gsm7Length (text.drop 152) = 9 ∧
    (pumpChunks encode now 2 (sendSMS encode st number text now).1).1.gsmIdle =
      A6_IDLE := by
  have hall' : ∀ b ∈ text, gsm7SingleByteLen b ≠ 0 := fun b hb => by
    rw [hall b hb]; norm_num
  have hsum : (text.map gsm7SingleByteLen).sum = 161 := by
    rw [gsm7sum_all_one text hall, hlen]
  have hg : gsm7Length text = 161 := by
    rw [gsm7Length_eq_sum text hall' (by omega), hsum]
  have hsub1 : substringB text 0 152 = text.take 152 := by simp [substringB]
  have hsub2 : substringB text 152 304 = text.drop 152 := by
    simp only [substringB]
    rw [List.take_of_length_le (by omega)]
  have htake : ∀ b ∈ text.take 152, gsm7SingleByteLen b = 1 :=
    fun b hb => hall b (List.take_subset _ _ hb)
  have hdrop : ∀ b ∈ text.drop 152, gsm7SingleByteLen b = 1 :=
    fun b hb => hall b (List.drop_subset _ _ hb)
  have hts : ((text.take 152).map gsm7SingleByteLen).sum = 152 := by
    rw [gsm7sum_all_one _ htake, List.length_take]
    omega
  have hds : ((text.drop 152).map gsm7SingleByteLen).sum = 9 := by
    rw [gsm7sum_all_one _ hdrop, List.length_drop]
    omega
  have hplan := sendSMS_multipart_gsm7 encode st number text now (by omega)
    (by rw [hg]; norm_num)
  rw [hg] at hplan
  norm_num at hplan
  rw [hsub1] at hplan
  rw [sendOneSmsChunk_success encode _ number (text.take 152) _ 2 1 now henc1] at hplan
  refine ⟨?_, ?_, ?_, ?_⟩
  · rw [hplan]
    simp only [pumpChunks, sendNextSmsChunk]
    norm_num
    rw [hsub2]
    rw [sendOneSmsChunk_success encode _ number (text.drop 152) _ 2 2 now henc2]
    simp [chunkEvents]
  · rw [gsm7Length_eq_sum _ (fun b hb => by rw [htake b hb]; norm_num) (by omega), hts]
  · rw [gsm7Length_eq_sum _ (fun b hb => by rw [hdrop b hb]; norm_num) (by omega), hds]
  · rw [hplan]
    simp only [pumpChunks, sendNextSmsChunk]
    norm_num
    rw [hsub2]
    rw [sendOneSmsChunk_success encode _ number (text.drop 152) _ 2 2 now henc2]
    simp [setIdle, A6_IDLE]

/-- Witness for c6_two_chunk_split on 161 letters 'a'. -/
theorem c6_two_chunk_split_witness :
    chunkEvents ((sendSMS encFive initState numW textChars161 0).2 ++
        (pumpChunks encFive 0 2 (sendSMS encFive initState numW textChars161 0).1).2) =
      [{ number := numW, text := textChars161.take 152,
         msgId := (initState.smsMsgId + 1) % 65536, msgCount := 2, msgIndex := 1 },
       { number := numW, text := textChars161.drop 152,
         msgId := (initState.smsMsgId + 1) % 65536, msgCount := 2, msgIndex := 2 }] ∧
    gsm7Length (textChars161.take 152) = 152 ∧
    gsm7Length (textChars161.drop 152) = 9 ∧
    (pumpChunks encFive 0 2 (sendSMS encFive initState numW textChars161 0).1).1.gsmIdle =
      A6_IDLE :=
  c6_two_chunk_split encFive initState numW textChars161 0 (by decide) (by decide)
    (by decide) (by decide)

/-- Driving k acknowledgements adds one to the sent counter (mod 2^32) per
remaining chunk, up to k: the counter grows by min k (count - index). -/
theorem pumpChunks_sent (encode : EncodeFn) (now : Nat)
    (hall : ∀ n t i c j, 0 ≤ encode n t i c j) :
    ∀ (k : Nat) (st : A6State), st.smsMsgCount < 256 →
      st.smsSentCount < 4294967296 →
      (pumpChunks encode now k st).1.smsSentCount =
        (st.smsSentCount + min k (st.smsMsgCount - st.smsMsgIndex)) % 4294967296 := by
  intro k
  induction k with
  | zero =>
    intro st h1 h2
    simp [pumpChunks, Nat.mod_eq_of_lt h2]
  | succ k ih =>
    intro st h1 h2
    simp only [pumpChunks]
    by_cases hc : st.smsMsgCount ≠ 0 ∧ st.smsMsgIndex < st.smsMsgCount
    · simp only [sendNextSmsChunk]
      rw [if_pos hc]
      rw [sendOneSmsChunk_success encode _ _ _ _ _ _ _ (hall _ _ _ _ _)]
      rw [ih _ (by simpa using h1) (by simp [Nat.mod_lt])]
      have hidx : (st.smsMsgIndex + 1) % 256 = st.smsMsgIndex + 1 :=
        Nat.mod_eq_of_lt (by omega)
      simp only [hidx]
      rw [Nat.mod_add_mod]
      congr 1
      omega
    · simp only [sendNextSmsChunk]
      rw [if_neg hc]
      rw [ih _ (by simpa [setIdle] using h1) (by simpa [setIdle] using h2)]
      simp only [setIdle]
      congr 1
      omega

/-- sendSMS with an always-succeeding codec: it sends exactly one chunk right
away (counter +1 mod 2^32), its chunk count is a uint8_t value, and in the
multi-part case the chunk index after the first send is 1. -/
theorem sendSMS_sent_facts (encode : EncodeFn) (st : A6State)
    (number text : List Nat) (now : Nat)
    (hall : ∀ n t i c j, 0 ≤ encode n t i c j) :
    (sendSMS encode st number text now).1.smsSentCount =
      (st.smsSentCount + 1) % 4294967296 ∧
    (sendSMS encode st number text now).1.smsMsgCount < 256 ∧
    ((sendSMS encode st number text now).1.smsMsgCount ≠ 0 →
      (sendSMS encode st number text now).1.smsMsgIndex = 1) := by
  simp only [sendSMS]
  split_ifs with h1 h2 h3 h4 h5 h6 <;>
    rw [sendOneSmsChunk_success encode _ _ _ _ _ _ _ (hall _ _ _ _ _)] <;>
    refine ⟨rfl, ?_, ?_⟩ <;>
    simp_all [Nat.mod_lt]

/-- Claim C10 (amended): the sent counter is a 32-bit unsigned value bumped
once, modulo 2^32, per chunk whose PDU encoding succeeds, before any
acknowledgement; a chunk whose encoding fails leaves the whole engine state
unchanged; and a full send whose chunks all encode successfully (sendSMS plus
one pump per chunk count) raises the counter by the number of chunks sent
(max 1 smsMsgCount), modulo 2^32. The counter thus never decreases except
when wrapping past 2^32 - 1 (see the counterexample). -/
theorem c10_sent_counter (encode : EncodeFn) (st : A6State)
    (number text : List Nat) (msgId msgCount msgIndex now : Nat)
    (hsent : st.smsSentCount < 4294967296) :
    (0 ≤ encode number text msgId msgCount msgIndex →
      (sendOneSmsChunk encode st number text msgId msgCount msgIndex now).1.smsSentCount =
        (st.smsSentCount + 1) % 4294967296) ∧
    (encode number text msgId msgCount msgIndex < 0 →
      sendOneSmsChunk encode st number text msgId msgCount msgIndex now =
        (st, [A6Event.chunkToCodec number text msgId msgCount msgIndex])) ∧
    ((∀ n t i c j, 0 ≤ encode n t i c j) →
      (pumpChunks encode now (sendSMS encode st number text now).1.smsMsgCount
          (sendSMS encode st number text now).1).1.smsSentCount =
        (st.smsSentCount + max 1 (sendSMS encode st number text now).1.smsMsgCount) %
          4294967296) := by
  refine ⟨fun henc => ?_, fun henc => ?_, fun hall => ?_⟩
  · rw [sendOneSmsChunk_success encode st number text msgId msgCount msgIndex now henc]
  · exact sendOneSmsChunk_failure encode st number text msgId msgCount msgIndex now henc
  · obtain ⟨hs1, hs2, hs3⟩ := sendSMS_sent_facts encode st number text now hall
    rw [pumpChunks_sent encode now hall _ _ hs2 (by rw [hs1]; exact Nat.mod_lt _ (by norm_num))]
    rw [hs1, Nat.mod_add_mod]
    by_cases hz : (sendSMS encode st number text now).1.smsMsgCount = 0
    · rw [hz]
      congr 1
      omega
    · rw [hs3 hz]
      congr 1
      omega

/-- Witness for c10_sent_counter: one successful chunk raises the counter from
0 to 1; a failed encode changes nothing; a 2-chunk multi-part send of 161
letters raises it by 2. -/
theorem c10_sent_counter_witness :
    (sendOneSmsChunk encFive initState numW (bytesOf ("Hi")) 0 0 0 0).1.smsSentCount =
      (initState.smsSentCount + 1) % 4294967296 ∧
    sendOneSmsChunk encFail initState numW (bytesOf ("Hi")) 0 0 0 0 =
      (initState, [A6Event.chunkToCodec numW (bytesOf ("Hi")) 0 0 0]) ∧
    (pumpChunks encFive 0 (sendSMS encFive initState numW textChars161 0).1.smsMsgCount
        (sendSMS encFive initState numW textChars161 0).1).1.smsSentCount =
      (initState.smsSentCount +
        max 1 (sendSMS encFive initState numW textChars161 0).1.smsMsgCount) %
        4294967296 :=
  ⟨(c10_sent_counter encFive initState numW (bytesOf ("Hi")) 0 0 0 0 (by decide)).1
      (by decide),
    (c10_sent_counter encFail initState numW (bytesOf ("Hi")) 0 0 0 0 (by decide)).2.1
      (by decide),
    (c10_sent_counter encFive initState numW textChars161 0 0 0 0 (by decide)).2.2
      (fun _ _ _ _ _ => by norm_num [encFive])⟩
